import Mathlib

/-!
# Verification of the sparkify ETL transformation core (`etl.ipynb`)

Shallow embedding of the transformation logic of `etl.ipynb`:

* song/artist dimension extraction (`song_df`, `artist_df`),
* the `NextSong` filter (`df = df[df.page == 'NextSong']`),
* the time decomposition (`t = pd.to_datetime(df['ts'], unit='ms')`,
  `time_data = [(str(x), x.hour, x.day, x.week, x.month, x.year, x.dayofweek) ...]`),
* the user projection (`user_df = df[['userId','firstName','lastName','gender','level']]`),
* the songplay loop (per-row `song_select` lookup, row assembly, insert, commit).

Floating-point columns (`duration`, `length`, `registration`, coordinates) are
modelled as exact rationals: the code never performs arithmetic on them, it only
passes them through and compares them for exact equality, which ℚ models
faithfully.  Epoch-millisecond timestamps (`ts`) are natural numbers; the sample
data and pandas' own range keep them nonnegative.
-/

namespace Sparkify

/-- One line of a song-catalog JSON file, fields as in the data files read by
`pd.read_json(filepath, lines=True)` in the song-processing cells. -/
structure SongCatalogRecord where
  num_songs : Nat
  artist_id : String
  artist_latitude : Option ℚ
  artist_longitude : Option ℚ
  artist_location : String
  artist_name : String
  song_id : String
  title : String
  duration : ℚ
  year : Nat
  deriving Repr, DecidableEq

/-- One line of an activity-log JSON file, fields as in the log files read by
`pd.read_json(filepath, lines=True)` in the log-processing cells. -/
structure ActivityEvent where
  artist : String
  auth : String
  firstName : String
  gender : String
  itemInSession : Nat
  lastName : String
  length : ℚ         -- track length in seconds
  level : String
  location : String
  method : String
  page : String
  registration : ℚ
  sessionId : Nat
  song : String
  status : Nat
  ts : Nat           -- epoch milliseconds
  userAgent : String
  userId : String
  deriving Repr, DecidableEq

/-- A `songs` dimension row: the columns selected by
`song_df = df[['song_id', 'title', 'artist_id', 'year', 'duration']]`. -/
structure Song where
  song_id : String
  title : String
  artist_id : String
  year : Nat
  duration : ℚ
  deriving Repr, DecidableEq

/-- An `artists` dimension row: the columns selected by
`artist_df = df[['artist_id', 'artist_name', 'artist_location',
'artist_latitude', 'artist_longitude']]`. -/
structure Artist where
  artist_id : String
  name : String
  location : String
  latitude : Option ℚ
  longitude : Option ℚ
  deriving Repr, DecidableEq

/-- A `time` dimension row, in the order of
`column_labels = ('start_time', 'hour', 'day', 'week', 'month', 'year', 'weekday')`. -/
structure TimeEntry where
  start_time : String
  hour : Nat
  day : Nat
  week : Nat
  month : Nat
  year : Nat
  weekday : Nat
  deriving Repr, DecidableEq

/-- A `users` dimension row: the columns selected by
`user_df = df[['userId', 'firstName', 'lastName', 'gender', 'level']]`. -/
structure User where
  user_id : String
  first_name : String
  last_name : String
  gender : String
  level : String
  deriving Repr, DecidableEq

/-- A `songplays` fact row, fields in the order of the `songplay_data` tuple
assembled inside the loop of cell 50. -/
structure Songplay where
  start_time : String
  user_id : String
  level : String
  song_id : Option String
  artist_id : Option String
  session_id : Nat
  location : String
  user_agent : String
  deriving Repr, DecidableEq

/-!
## Calendar arithmetic

`pd.to_datetime(ts, unit='ms')` interprets `ts` as milliseconds since the Unix
epoch, without a timezone.  The datetime properties used by the notebook
(`x.hour`, `x.day`, `x.week`, `x.month`, `x.year`, `x.dayofweek`, `str(x)`) are
embedded below over `Nat`: the proleptic Gregorian conversion from epoch days
follows the standard civil-from-days algorithm that datetime libraries
implement, and `x.week` is the ISO 8601 week number while `x.dayofweek` counts
0 = Monday .. 6 = Sunday.
-/

/-- Correction term of the year-of-era computation: days adjusted for the
leap-day pattern inside one 400-year era. -/
def uOf (doe : Nat) : Nat := doe - doe / 1460 + doe / 36524 - doe / 146096

/-- Year of the era (0..399) in which day-of-era `doe` falls. -/
def yoeOf (doe : Nat) : Nat := uOf doe / 365

/-- Day-of-era of 1 March of year-of-era `yoe`. -/
def sOf (yoe : Nat) : Nat := 365 * yoe + yoe / 4 - yoe / 100

/-- Last day-of-era belonging to year-of-era `y`. -/
def eOf (y : Nat) : Nat := if y = 399 then 146096 else sOf (y + 1) - 1

/-- Year, month and day (March-based era decomposition) for day-of-era `doe`
of era `era`. -/
def civilOfEra (era doe : Nat) : Nat × Nat × Nat :=
  let yoe := yoeOf doe
  let doy := doe - sOf yoe
  let mp := (5 * doy + 2) / 153
  let d := doy - (153 * mp + 2) / 5 + 1
  let m := if mp < 10 then mp + 3 else mp - 9
  (if m ≤ 2 then yoe + era * 400 + 1 else yoe + era * 400, m, d)

/-- Gregorian (year, month, day) of the day `days` after 1970-01-01. -/
def civilFromDays (days : Nat) : Nat × Nat × Nat :=
  civilOfEra ((days + 719468) / 146097) ((days + 719468) % 146097)

/-- Days after 1970-01-01 of the Gregorian date (y, m, d); inverse of
`civilFromDays` for the dates that conversion produces. -/
def daysFromCivil (y m d : Nat) : Nat :=
  let yA := if m ≤ 2 then y - 1 else y
  let era := yA / 400
  let yoe := yA % 400
  let doy := (153 * (if 2 < m then m - 3 else m + 9) + 2) / 5 + d - 1
  let doe := 365 * yoe + yoe / 4 - yoe / 100 + doy
  era * 146097 + doe - 719468

/-- Weekday (0 = Monday .. 6 = Sunday) of a Gregorian date, computed from its
epoch-day number; 1970-01-01 was a Thursday. -/
def weekdayOfDate (y m d : Nat) : Nat := (daysFromCivil y m d + 3) % 7

/-- Does ISO year `y` have 53 weeks? -/
def isoLongYear (y : Nat) : Bool :=
  let p := fun yy => (yy + yy / 4 - yy / 100 + yy / 400) % 7
  p y == 4 || p (y - 1) == 3

/-- ISO 8601 week number of a Gregorian date. -/
def isoWeek (y m d : Nat) : Nat :=
  let dow := (daysFromCivil y m d + 3) % 7 + 1
  let doy := daysFromCivil y m d - daysFromCivil y 1 1 + 1
  let w := (doy + 10 - dow) / 7
  if w = 0 then (if isoLongYear (y - 1) then 53 else 52)
  else if w = 53 && !isoLongYear y then 1
  else w

/-- Left-pad the decimal digits of `n` with zeros to width `w`. -/
def pad (w n : Nat) : String :=
  let s := toString n
  String.mk (List.replicate (w - s.length) '0') ++ s

/-- `str(pd.to_datetime(ts, unit='ms'))`: `YYYY-MM-DD HH:MM:SS` followed by a
six-digit fractional part when the sub-second part is nonzero. -/
def timestampStr (ts : Nat) : String :=
  let c := civilFromDays (ts / 86400000)
  let ms := ts % 86400000
  let base := pad 4 c.1 ++ "-" ++ pad 2 c.2.1 ++ "-" ++ pad 2 c.2.2 ++ " " ++
    pad 2 (ms / 3600000) ++ ":" ++ pad 2 (ms % 3600000 / 60000) ++ ":" ++
    pad 2 (ms % 60000 / 1000)
  if ts % 1000 = 0 then base else base ++ "." ++ pad 6 (ts % 1000 * 1000)

/-!
## The transformation pipeline

Each definition mirrors one cell of `etl.ipynb`, with a dataframe embedded as
the list of its rows.
-/

/-- Cell 14: `song_df = df[['song_id', 'title', 'artist_id', 'year', 'duration']]`
— a pure column projection of the song-catalog records. -/
def song_df (df : List SongCatalogRecord) : List Song :=
  df.map fun r =>
    { song_id := r.song_id
      title := r.title
      artist_id := r.artist_id
      year := r.year
      duration := r.duration }

/-- Cell 20: `artist_df = df[['artist_id', 'artist_name', 'artist_location',
'artist_latitude', 'artist_longitude']]` — a pure column projection. -/
def artist_df (df : List SongCatalogRecord) : List Artist :=
  df.map fun r =>
    { artist_id := r.artist_id
      name := r.artist_name
      location := r.artist_location
      latitude := r.artist_latitude
      longitude := r.artist_longitude }

/-- Cell 32: `df = df[df.page == 'NextSong']`. -/
def filterNextSong (df : List ActivityEvent) : List ActivityEvent :=
  df.filter fun e => e.page == "NextSong"

/-- Cell 36, one element of `time_data`: `(str(x), x.hour, x.day, x.week,
x.month, x.year, x.dayofweek)` for `x = pd.to_datetime(ts, unit='ms')`. -/
def time_row (ts : Nat) : TimeEntry :=
  let c := civilFromDays (ts / 86400000)
  { start_time := timestampStr ts
    hour := ts % 86400000 / 3600000
    day := c.2.2
    week := isoWeek c.1 c.2.1 c.2.2
    month := c.2.1
    year := c.1
    weekday := (ts / 86400000 + 3) % 7 }

/-- Cells 34-38: the time dataframe built from the `ts` column of the
filtered log. -/
def time_df (df : List ActivityEvent) : List TimeEntry :=
  (filterNextSong df).map fun e => time_row e.ts

/-- One row of cell 44's user projection. -/
def userRow (e : ActivityEvent) : User :=
  { user_id := e.userId
    first_name := e.firstName
    last_name := e.lastName
    gender := e.gender
    level := e.level }

/-- Cell 44: `user_df = df[['userId', 'firstName', 'lastName', 'gender',
'level']].copy()`, taken of the `NextSong`-filtered frame. -/
def user_df (df : List ActivityEvent) : List User :=
  (filterNextSong df).map userRow

/-- Modelled from the spec: the `song_select` query is defined in
`sql_queries.py`, which is not among the sources of this repository.  The spec
specifies `lookupSongArtist(title, artistName, duration) -> optional
(songId, artistId)`: a natural-key point query against the already-loaded
song-catalog data, matching title and artist name exactly (case-sensitive)
and duration exactly, with no tolerance. -/
def lookupSongArtist (catalog : List SongCatalogRecord)
    (title artistName : String) (duration : ℚ) : Option (String × String) :=
  (catalog.find? fun r =>
      r.title == title && r.artist_name == artistName && r.duration == duration).map
    fun r => (r.song_id, r.artist_id)

/-- The body of the cell-50 loop up to `songplay_data`: run the lookup, unpack
`results if results else (None, None)`, and assemble the fact row
`(str(pd.to_datetime(row.ts, unit='ms')), row.userId, row.level, song_id,
artist_id, row.sessionId, row.location, row.userAgent)`. -/
def songplay_data (lookup : String → String → ℚ → Option (String × String))
    (e : ActivityEvent) : Songplay :=
  let results := lookup e.song e.artist e.length
  let ids : Option String × Option String :=
    match results with
    | some r => (some r.1, some r.2)
    | none => (none, none)
  { start_time := timestampStr e.ts
    user_id := e.userId
    level := e.level
    song_id := ids.1
    artist_id := ids.2
    session_id := e.sessionId
    location := e.location
    user_agent := e.userAgent }

/-- Observable state of the storage connection during the cell-50 loop:
the lookup calls issued so far, the inserted rows not yet committed, and the
rows made durable by `conn.commit()`. -/
structure LoopState where
  calls : List (String × String × ℚ)
  pending : List Songplay
  committed : List Songplay
  deriving Repr, DecidableEq

/-- One iteration of the cell-50 loop: `cur.execute(song_select, (row.song,
row.artist, float(row.length)))`, row assembly, `execute_values(cur,
songplay_table_insert, [songplay_data])`, then `conn.commit()`. -/
def songplayStep (lookup : String → String → ℚ → Option (String × String))
    (s : LoopState) (e : ActivityEvent) : LoopState :=
  let afterInsert := s.pending ++ [songplay_data lookup e]
  { calls := s.calls ++ [(e.song, e.artist, e.length)]
    pending := []
    committed := s.committed ++ afterInsert }

/-- The first `k` iterations of the cell-50 loop over the filtered log,
starting from a fresh connection state.  If a storage write fails at iteration
`k` (0-based), this is exactly the state the database is left in. -/
def songplayLoopTo (lookup : String → String → ℚ → Option (String × String))
    (df : List ActivityEvent) (k : Nat) : LoopState :=
  ((filterNextSong df).take k).foldl (songplayStep lookup) ⟨[], [], []⟩

/-- The complete cell-50 loop: `for _, row in df.iterrows(): ...`. -/
def songplayLoop (lookup : String → String → ℚ → Option (String × String))
    (df : List ActivityEvent) : LoopState :=
  (filterNextSong df).foldl (songplayStep lookup) ⟨[], [], []⟩

/-- Modelled from the spec: `user_table_insert` lives in `sql_queries.py`,
which is not among the sources of this repository.  The spec specifies the
users load as insert-or-update-level-on-conflict keyed on `user_id`
(last write wins). -/
def upsertUser (table : List User) (u : User) : List User :=
  if table.any fun r => r.user_id == u.user_id then
    table.map fun r => if r.user_id == u.user_id then { r with level := u.level } else r
  else
    table ++ [u]

/-- Modelled from the spec: the users table contents after bulk-upserting a
batch of User rows into an empty table. -/
def upsert_users (rows : List User) : List User :=
  rows.foldl upsertUser []

/-!
## Concrete sample data

The song-catalog record and the log rows displayed in the notebook's own cell
outputs (cells 12 and 30); the fields the notebook output truncates are filled
with plausible values, none of which any claim depends on.
-/

/-- The single record of the first song file (cell 12). -/
def adamAnt : SongCatalogRecord :=
  { num_songs := 1
    artist_id := "AR7G5I41187FB4CE6C"
    artist_latitude := none
    artist_longitude := none
    artist_location := "London, England"
    artist_name := "Adam Ant"
    song_id := "SONHOTT12A8C13493C"
    title := "Something Girls"
    duration := 233.40363
    year := 1982 }

/-- First log row of cell 30: user 69 plays "Fuck Kitty". -/
def ev69a : ActivityEvent :=
  { artist := "Frumpies"
    auth := "Logged In"
    firstName := "Anabelle"
    gender := "F"
    itemInSession := 0
    lastName := "Simpson"
    length := 134.47791
    level := "free"
    location := "Philadelphia-Camden-Wilmington, PA-NJ-DE-MD"
    method := "PUT"
    page := "NextSong"
    registration := 1541044000000
    sessionId := 455
    song := "Fuck Kitty"
    status := 200
    ts := 1541903636796
    userAgent := "Mozilla/5.0 (Macintosh; Intel Mac OS X 10_9_4)"
    userId := "69" }

/-- Second log row of cell 30: user 69 plays "By The Time This Night Is Over". -/
def ev69b : ActivityEvent :=
  { artist := "Kenny G with Peabo Bryson"
    auth := "Logged In"
    firstName := "Anabelle"
    gender := "F"
    itemInSession := 1
    lastName := "Simpson"
    length := 264.75057
    level := "free"
    location := "Philadelphia-Camden-Wilmington, PA-NJ-DE-MD"
    method := "PUT"
    page := "NextSong"
    registration := 1541044000000
    sessionId := 455
    song := "By The Time This Night Is Over"
    status := 200
    ts := 1541903770796
    userAgent := "Mozilla/5.0 (Macintosh; Intel Mac OS X 10_9_4)"
    userId := "69" }

/-- A non-play event carrying a valid user id. -/
def evHome : ActivityEvent :=
  { artist := ""
    auth := "Logged In"
    firstName := "Lily"
    gender := "F"
    itemInSession := 0
    lastName := "Burns"
    length := 0
    level := "free"
    location := "New York-Newark-Jersey City, NY-NJ-PA"
    method := "GET"
    page := "Home"
    registration := 1540621059000
    sessionId := 456
    song := ""
    status := 200
    ts := 1541910000000
    userAgent := "Mozilla/5.0 (Windows NT 6.1; WOW64)"
    userId := "32" }

/-- A play event whose user id is empty, as logged-out listeners produce. -/
def evEmptyUser : ActivityEvent :=
  { artist := "The Mars Volta"
    auth := "Logged Out"
    firstName := ""
    gender := ""
    itemInSession := 0
    lastName := ""
    length := 380.42077
    level := "free"
    location := ""
    method := "PUT"
    page := "NextSong"
    registration := 0
    sessionId := 457
    song := "Eriatarka"
    status := 200
    ts := 1541912000000
    userAgent := ""
    userId := "" }

/-!
## Correctness of the calendar conversion

`daysFromCivil` inverts `civilFromDays`.  The year-of-era formula is checked at
the 400 first and last days of each year of an era (a bounded decision), and
extended to every day of the era by monotonicity.
-/

set_option maxRecDepth 2000

/-- Bounded universal quantification over `[lo, hi)` by binary splitting, with
fuel so that kernel reduction stays shallow. -/
def rangeAll (p : Nat → Bool) : Nat → Nat → Nat → Bool
  | 0, lo, hi => decide (hi ≤ lo)
  | fuel + 1, lo, hi =>
    if hi ≤ lo then true
    else if hi = lo + 1 then p lo
    else rangeAll p fuel lo ((lo + hi) / 2) && rangeAll p fuel ((lo + hi) / 2) hi

theorem rangeAll_sound (p : Nat → Bool) :
    ∀ fuel lo hi, rangeAll p fuel lo hi = true → ∀ i, lo ≤ i → i < hi → p i = true := by
  intro fuel
  induction fuel with
  | zero =>
    intro lo hi h i hlo hhi
    simp only [rangeAll, decide_eq_true_eq] at h
    omega
  | succ n ih =>
    intro lo hi h i hlo hhi
    simp only [rangeAll] at h
    by_cases h1 : hi ≤ lo
    · omega
    · by_cases h2 : hi = lo + 1
      · have hi_eq : i = lo := by omega
        rw [if_neg h1, if_pos h2] at h
        rw [hi_eq]; exact h
      · rw [if_neg h1, if_neg h2, Bool.and_eq_true] at h
        rcases Nat.lt_or_ge i ((lo + hi) / 2) with hc | hc
        · exact ih lo ((lo + hi) / 2) h.1 i hlo hc
        · exact ih ((lo + hi) / 2) hi h.2 i hc hhi

theorem u_step (n : Nat) : uOf n ≤ uOf (n + 1) := by unfold uOf; omega

theorem u_mono {a b : Nat} (h : a ≤ b) : uOf a ≤ uOf b := by
  induction b with
  | zero => simp_all
  | succ n ih =>
    rcases Nat.lt_or_ge a (n + 1) with hc | hc
    · exact Nat.le_trans (ih (by omega)) (u_step n)
    · have : a = n + 1 := by omega
      simp [this]

theorem yoe_mono {a b : Nat} (h : a ≤ b) : yoeOf a ≤ yoeOf b :=
  Nat.div_le_div_right (u_mono h)

theorem lo_pt_all : rangeAll (fun y => decide (yoeOf (sOf y) = y)) 10 0 400 = true := by
  decide

theorem hi_pt_all : rangeAll (fun y => decide (yoeOf (eOf y) = y)) 10 0 400 = true := by
  decide

theorem lo_pt {y : Nat} (h : y < 400) : yoeOf (sOf y) = y := by
  have := rangeAll_sound _ 10 0 400 lo_pt_all y (Nat.zero_le _) h
  exact of_decide_eq_true this

theorem hi_pt {y : Nat} (h : y < 400) : yoeOf (eOf y) = y := by
  have := rangeAll_sound _ 10 0 400 hi_pt_all y (Nat.zero_le _) h
  exact of_decide_eq_true this

theorem sOf_gap (y : Nat) : sOf (y + 1) ≤ sOf y + 366 := by unfold sOf; omega

theorem era_bounds {doe : Nat} (h : doe < 146097) :
    yoeOf doe < 400 ∧ sOf (yoeOf doe) ≤ doe ∧ doe - sOf (yoeOf doe) < 366 := by
  have h399 : yoeOf doe ≤ 399 := by
    have h1 : yoeOf doe ≤ yoeOf 146096 := yoe_mono (by omega)
    have h2 : yoeOf (eOf 399) = 399 := hi_pt (by omega)
    have h3 : eOf 399 = 146096 := by unfold eOf; simp
    rw [h3] at h2
    omega
  refine ⟨by omega, ?_, ?_⟩
  · by_contra hn
    push_neg at hn
    have hy1 : 1 ≤ yoeOf doe := by
      by_contra h0
      have : yoeOf doe = 0 := by omega
      rw [this] at hn
      simp [sOf] at hn
    have hsub : yoeOf doe - 1 + 1 = yoeOf doe := by omega
    have he : eOf (yoeOf doe - 1) = sOf (yoeOf doe) - 1 := by
      unfold eOf
      rw [if_neg (by omega), hsub]
    have h4 : yoeOf doe ≤ yoeOf (eOf (yoeOf doe - 1)) := by
      apply yoe_mono
      rw [he]
      omega
    rw [hi_pt (by omega : yoeOf doe - 1 < 400)] at h4
    omega
  · rcases Nat.lt_or_ge (yoeOf doe) 399 with hc | hc
    · have hle : doe ≤ sOf (yoeOf doe + 1) - 1 := by
        by_contra hn
        push_neg at hn
        have h5 : sOf (yoeOf doe + 1) ≤ doe := by
          have : 1 ≤ sOf (yoeOf doe + 1) := by unfold sOf; omega
          omega
        have h6 : yoeOf (sOf (yoeOf doe + 1)) ≤ yoeOf doe := yoe_mono h5
        rw [lo_pt (by omega : yoeOf doe + 1 < 400)] at h6
        omega
      have := sOf_gap (yoeOf doe)
      omega
    · have heq : yoeOf doe = 399 := by omega
      rw [heq]
      have : sOf 399 = 145731 := by decide
      omega

theorem month_pt_all :
    rangeAll (fun doy => decide ((5 * doy + 2) / 153 ≤ 11 ∧
      (153 * ((5 * doy + 2) / 153) + 2) / 5 ≤ doy)) 10 0 366 = true := by
  decide

theorem month_pt {doy : Nat} (h : doy < 366) :
    (5 * doy + 2) / 153 ≤ 11 ∧ (153 * ((5 * doy + 2) / 153) + 2) / 5 ≤ doy := by
  have := rangeAll_sound _ 10 0 366 month_pt_all doy (Nat.zero_le _) h
  exact of_decide_eq_true this

theorem era_rt {era doe : Nat} (h : doe < 146097) {y m d : Nat}
    (hc : civilOfEra era doe = (y, m, d)) :
    daysFromCivil y m d = era * 146097 + doe - 719468 := by
  obtain ⟨hy, hs, hd⟩ := era_bounds h
  obtain ⟨hmp, hq⟩ := month_pt hd
  simp only [civilOfEra] at hc
  simp only [daysFromCivil]
  have hb : sOf (yoeOf doe) = 365 * yoeOf doe + yoeOf doe / 4 - yoeOf doe / 100 := rfl
  generalize ha : yoeOf doe = a at *
  generalize hdd : sOf a = sa at *
  generalize hdoy : doe - sa = doy at *
  generalize hmp2 : (5 * doy + 2) / 153 = mp at *
  generalize hq2 : (153 * mp + 2) / 5 = q at *
  by_cases h10 : mp < 10
  · rw [if_pos h10, if_neg (by omega)] at hc
    simp only [Prod.mk.injEq] at hc
    obtain ⟨h1, h2, h3⟩ := hc
    subst h1; subst h2; subst h3
    rw [if_neg (by omega), if_pos (by omega), Nat.add_sub_cancel, hq2]
    rw [show q + (doy - q + 1) - 1 = doy by omega]
    generalize hY : a + era * 400 = Y
    have hY1 : Y / 400 = era := by omega
    have hY2 : Y % 400 = a := by omega
    rw [hY1, hY2]
    have hE : era * 146097 + (365 * a + a / 4 - a / 100 + doy) = era * 146097 + doe := by
      omega
    rw [hE]
  · rw [if_neg h10, if_pos (by omega)] at hc
    simp only [Prod.mk.injEq] at hc
    obtain ⟨h1, h2, h3⟩ := hc
    subst h1; subst h2; subst h3
    rw [if_pos (by omega), if_neg (by omega), Nat.sub_add_cancel (by omega), hq2]
    rw [show q + (doy - q + 1) - 1 = doy by omega, Nat.add_sub_cancel]
    generalize hY : a + era * 400 = Y
    have hY1 : Y / 400 = era := by omega
    have hY2 : Y % 400 = a := by omega
    rw [hY1, hY2]
    have hE : era * 146097 + (365 * a + a / 4 - a / 100 + doy) = era * 146097 + doe := by
      omega
    rw [hE]

theorem civilFromDays_rt (days : Nat) :
    daysFromCivil (civilFromDays days).1 (civilFromDays days).2.1
      (civilFromDays days).2.2 = days := by
  have h : (days + 719468) % 146097 < 146097 := Nat.mod_lt _ (by omega)
  have := @era_rt ((days + 719468) / 146097) ((days + 719468) % 146097) h
    (civilFromDays days).1 (civilFromDays days).2.1 (civilFromDays days).2.2 rfl
  rw [this]
  omega

/-!
## Pipeline lemmas
-/

theorem songplay_data_ids (lookup : String → String → ℚ → Option (String × String))
    (e : ActivityEvent) :
    songplay_data lookup e =
      { start_time := timestampStr e.ts
        user_id := e.userId
        level := e.level
        song_id := (lookup e.song e.artist e.length).map Prod.fst
        artist_id := (lookup e.song e.artist e.length).map Prod.snd
        session_id := e.sessionId
        location := e.location
        user_agent := e.userAgent } := by
  cases h : lookup e.song e.artist e.length <;> simp [songplay_data, h]

theorem songplayLoop_go (lookup : String → String → ℚ → Option (String × String))
    (l : List ActivityEvent) (s : LoopState) (hp : s.pending = []) :
    l.foldl (songplayStep lookup) s =
      { calls := s.calls ++ l.map fun e => (e.song, e.artist, e.length)
        pending := []
        committed := s.committed ++ l.map (songplay_data lookup) } := by
  induction l generalizing s with
  | nil =>
    cases s
    simp_all
  | cons e es ih =>
    rw [List.foldl_cons, ih (songplayStep lookup s e) rfl]
    simp [songplayStep, hp]

theorem filterNextSong_append (l1 l2 : List ActivityEvent) :
    filterNextSong (l1 ++ l2) = filterNextSong l1 ++ filterNextSong l2 :=
  List.filter_append _ _

theorem filterNextSong_cons_neg {e : ActivityEvent} (h : e.page ≠ "NextSong")
    (l : List ActivityEvent) : filterNextSong (e :: l) = filterNextSong l := by
  simp [filterNextSong, List.filter_cons, h]

theorem filterNextSong_drop_non_play {e : ActivityEvent} (h : e.page ≠ "NextSong")
    (pre post : List ActivityEvent) :
    filterNextSong (pre ++ e :: post) = filterNextSong (pre ++ post) := by
  rw [filterNextSong_append, filterNextSong_append, filterNextSong_cons_neg h]

/-!
## The claims
-/

/-- C1: for every ActivityEvent that passes the `page == "NextSong"` filter,
the songplay loop issues exactly one lookup call with arguments
(song title, artist name, duration) — matched exactly by `lookupSongArtist`,
with no tolerance — and commits exactly one Songplay row whose fields are, in
order: the decomposed start_time, user_id, level, song_id, artist_id,
session_id, location and user_agent. -/
theorem songplay_resolver_one_lookup_one_row (catalog : List SongCatalogRecord)
    (df : List ActivityEvent) :
    (songplayLoop (lookupSongArtist catalog) df).calls =
      ((filterNextSong df).map fun e => (e.song, e.artist, e.length)) ∧
    (songplayLoop (lookupSongArtist catalog) df).committed =
      ((filterNextSong df).map fun e =>
        { start_time := timestampStr e.ts
          user_id := e.userId
          level := e.level
          song_id := (lookupSongArtist catalog e.song e.artist e.length).map Prod.fst
          artist_id := (lookupSongArtist catalog e.song e.artist e.length).map Prod.snd
          session_id := e.sessionId
          location := e.location
          user_agent := e.userAgent }) := by
  rw [songplayLoop, songplayLoop_go _ _ _ rfl]
  refine ⟨by simp, ?_⟩
  simp only [List.nil_append]
  exact List.map_congr_left fun e _ => songplay_data_ids _ e

/-- C2: a play event for which the natural-key lookup finds no match still
contributes exactly one Songplay row, with `song_id` and `artist_id` both
null; no event is skipped (the committed row count always equals the filtered
event count). -/
theorem songplay_no_match_emits_null_row (catalog : List SongCatalogRecord)
    (df : List ActivityEvent) (e : ActivityEvent) (he : e ∈ filterNextSong df)
    (hnone : lookupSongArtist catalog e.song e.artist e.length = none) :
    (songplayLoop (lookupSongArtist catalog) df).committed.length =
      (filterNextSong df).length ∧
    songplay_data (lookupSongArtist catalog) e ∈
      (songplayLoop (lookupSongArtist catalog) df).committed ∧
    songplay_data (lookupSongArtist catalog) e =
      { start_time := timestampStr e.ts
        user_id := e.userId
        level := e.level
        song_id := none
        artist_id := none
        session_id := e.sessionId
        location := e.location
        user_agent := e.userAgent } := by
  rw [songplayLoop, songplayLoop_go _ _ _ rfl]
  refine ⟨by simp, ?_, ?_⟩
  · simp only [List.nil_append, List.mem_map]
    exact ⟨e, he, rfl⟩
  · rw [songplay_data_ids, hnone]
    rfl

/-- Witness for C2 at a concrete input: with an empty catalog the lookup for
`ev69a` returns no match, and the row is still committed. -/
theorem songplay_no_match_witness :
    (songplayLoop (lookupSongArtist []) [ev69a]).committed.length =
      (filterNextSong [ev69a]).length ∧
    songplay_data (lookupSongArtist []) ev69a ∈
      (songplayLoop (lookupSongArtist []) [ev69a]).committed :=
  ⟨(songplay_no_match_emits_null_row [] [ev69a] ev69a (List.mem_singleton.mpr rfl) rfl).1,
   (songplay_no_match_emits_null_row [] [ev69a] ev69a (List.mem_singleton.mpr rfl) rfl).2.1⟩

/-- C3: an ActivityEvent whose `page` is not `"NextSong"` contributes neither
a TimeEntry row nor a Songplay row (nor a lookup call): removing such an event
from any position of the log leaves both outputs unchanged. -/
theorem non_play_events_produce_no_rows (catalog : List SongCatalogRecord)
    (pre post : List ActivityEvent) (e : ActivityEvent) (h : e.page ≠ "NextSong") :
    time_df (pre ++ e :: post) = time_df (pre ++ post) ∧
    songplayLoop (lookupSongArtist catalog) (pre ++ e :: post) =
      songplayLoop (lookupSongArtist catalog) (pre ++ post) := by
  constructor
  · rw [time_df, time_df, filterNextSong_drop_non_play h]
  · rw [songplayLoop, songplayLoop, filterNextSong_drop_non_play h]

/-- Witness for C3 at a concrete input: the `page = "Home"` event `evHome`
contributes no time or songplay output. -/
theorem non_play_events_witness :
    time_df [evHome, ev69a] = time_df [ev69a] ∧
    songplayLoop (lookupSongArtist [adamAnt]) [evHome, ev69a] =
      songplayLoop (lookupSongArtist [adamAnt]) [ev69a] :=
  non_play_events_produce_no_rows [adamAnt] [] [ev69a] evHome (by decide)

/-- C4 counterexample: `evEmptyUser` is a play event with an empty `userId`,
yet the user projection still produces a row for it — the claim that
empty-user-id events yield no User row is false of the code, which applies no
user-id check at all. -/
theorem user_extractor_cex :
    evEmptyUser.page = "NextSong" ∧ evEmptyUser.userId = "" ∧
    user_df [evEmptyUser] ≠ ([] : List User) := by
  refine ⟨rfl, rfl, ?_⟩
  decide

/-- C4 as amended: the user projection applies no `user_id` filter — every
event that passes the `page == "NextSong"` filter (and only those) produces
exactly one User row `{user_id, first_name, last_name, gender, level}`,
whether or not its `user_id` is empty. -/
theorem user_extractor_no_userid_filter (df : List ActivityEvent) :
    (user_df df).length = (filterNextSong df).length ∧
    ∀ i : Nat, (user_df df)[i]? = ((filterNextSong df)[i]?).map userRow := by
  refine ⟨by simp [user_df], fun i => ?_⟩
  simp [user_df]

/-- C5: the time decomposition is a single deterministic conversion of the
millisecond timestamp, and its seven fields are mutually consistent: the
weekday field agrees with the weekday recomputed from the (year, month, day)
triple, the week field is the ISO week of that triple, hour and start_time are
derived from the same instant, and the weekday convention is
0 = Monday .. 6 = Sunday (2018-11-12 was a Monday, 2018-11-11 a Sunday). -/
theorem time_decomposer_consistent (ts : Nat) :
    (time_row ts).weekday =
      weekdayOfDate (time_row ts).year (time_row ts).month (time_row ts).day ∧
    (time_row ts).week =
      isoWeek (time_row ts).year (time_row ts).month (time_row ts).day ∧
    (time_row ts).hour = ts % 86400000 / 3600000 ∧
    (time_row ts).start_time = timestampStr ts ∧
    weekdayOfDate 2018 11 12 = 0 ∧ weekdayOfDate 2018 11 11 = 6 := by
  refine ⟨?_, rfl, rfl, rfl, by decide, by decide⟩
  have h := civilFromDays_rt (ts / 86400000)
  simp only [time_row, weekdayOfDate]
  rw [h]

/-- C6 counterexample: the notebook's `str(x)` start_time strings carry a
six-digit fractional part, so the two TimeEntry rows of the sample log do not
have the start_time strings `"2018-11-11 02:33:56.796"` and
`"2018-11-11 02:36:10.796"` stated by the claim. -/
theorem end_to_end_cex :
    (time_df [ev69a, ev69b]).map TimeEntry.start_time ≠
      ["2018-11-11 02:33:56.796", "2018-11-11 02:36:10.796"] := by
  decide

/-- C6 as amended: the two-event sample log produces exactly two TimeEntry
rows with start_time `"2018-11-11 02:33:56.796000"` and
`"2018-11-11 02:36:10.796000"` (hour 2, day 11, week 45, month 11, year 2018,
weekday 6), and upserting the extracted user batch leaves one users-table row
for user 69. -/
theorem end_to_end_two_plays :
    time_df [ev69a, ev69b] =
      [{ start_time := "2018-11-11 02:33:56.796000", hour := 2, day := 11,
         week := 45, month := 11, year := 2018, weekday := 6 },
       { start_time := "2018-11-11 02:36:10.796000", hour := 2, day := 11,
         week := 45, month := 11, year := 2018, weekday := 6 }] ∧
    upsert_users (user_df [ev69a, ev69b]) =
      [{ user_id := "69", first_name := "Anabelle", last_name := "Simpson",
         gender := "F", level := "free" }] := by
  refine ⟨?_, ?_⟩ <;> decide

/-- C7: the song/artist extraction is a pure projection — for any single
catalog record it yields exactly one Song row and one Artist row whose fields
are the source fields unchanged (nullable coordinates included); in Lean the
extractor is a function, so calling it twice on the same input yields the same
rows definitionally.  On the notebook's sample record it produces exactly the
Song and Artist rows of the claim. -/
theorem song_artist_extractor_pure_projection (r : SongCatalogRecord) :
    song_df [r] = [{ song_id := r.song_id, title := r.title,
                     artist_id := r.artist_id, year := r.year,
                     duration := r.duration }] ∧
    artist_df [r] = [{ artist_id := r.artist_id, name := r.artist_name,
                       location := r.artist_location,
                       latitude := r.artist_latitude,
                       longitude := r.artist_longitude }] ∧
    song_df [adamAnt] = [{ song_id := "SONHOTT12A8C13493C",
                           title := "Something Girls",
                           artist_id := "AR7G5I41187FB4CE6C",
                           year := 1982, duration := 233.40363 }] ∧
    artist_df [adamAnt] = [{ artist_id := "AR7G5I41187FB4CE6C",
                             name := "Adam Ant", location := "London, England",
                             latitude := none, longitude := none }] :=
  ⟨rfl, rfl, rfl, rfl⟩

/-- C8: User rows are extracted only from events that passed the
`page == "NextSong"` filter — a non-play event contributes no User row even
with a valid user id — and the batch carries one row per play event, so
duplicate rows for the same user are emitted (deduplication is the loader's
upsert's job): the sample log yields two identical rows for user 69. -/
theorem user_rows_only_from_play_events (pre post : List ActivityEvent)
    (e : ActivityEvent) :
    (e.page ≠ "NextSong" → user_df (pre ++ e :: post) = user_df (pre ++ post)) ∧
    (∀ df : List ActivityEvent, (user_df df).length = (filterNextSong df).length) ∧
    user_df [ev69a, ev69b] = [userRow ev69a, userRow ev69b] ∧
    userRow ev69a = userRow ev69b := by
  refine ⟨fun h => ?_, fun df => by simp [user_df], rfl, rfl⟩
  rw [user_df, user_df, filterNextSong_drop_non_play h]

/-- Witness for C8 at concrete inputs: dropping the `page = "Home"` event
`evHome` leaves the user batch unchanged, and the two sample play events
yield identical User rows. -/
theorem user_rows_witness :
    user_df ([] ++ evHome :: [ev69a]) = user_df ([] ++ [ev69a]) ∧
    userRow ev69a = userRow ev69b :=
  ⟨(user_rows_only_from_play_events [] [ev69a] evHome).1 (by decide),
   (user_rows_only_from_play_events [] [ev69a] evHome).2.2.2⟩

/-- C9: for every play event, the start_time of the committed Songplay row is
string-equal to the start_time of the TimeEntry row derived from the same
event's timestamp — both are the same milliseconds-to-datetime conversion
followed by the same string formatting. -/
theorem songplay_start_time_matches_time_dimension
    (catalog : List SongCatalogRecord) (df : List ActivityEvent) :
    (songplayLoop (lookupSongArtist catalog) df).committed.map Songplay.start_time =
      (time_df df).map TimeEntry.start_time := by
  rw [songplayLoop, songplayLoop_go _ _ _ rfl, time_df]
  simp only [List.nil_append, List.map_map]
  exact List.map_congr_left fun e _ => rfl

/-- C10: the songplay loop commits once per row: after any number `k` of
completed iterations — the state a storage failure at iteration `k` leaves
behind — exactly the rows of the first `k` play events are durably committed
and nothing is pending, so the unit of atomicity is a single songplay row,
not the file. -/
theorem songplay_commit_per_row (catalog : List SongCatalogRecord)
    (df : List ActivityEvent) (k : Nat) :
    (songplayLoopTo (lookupSongArtist catalog) df k).committed =
      ((filterNextSong df).take k).map (songplay_data (lookupSongArtist catalog)) ∧
    (songplayLoopTo (lookupSongArtist catalog) df k).pending = [] := by
  rw [songplayLoopTo, songplayLoop_go _ _ _ rfl]
  exact ⟨by simp, rfl⟩

end Sparkify
